import Mathlib

/-!
Verification of the order-processing pipeline in `app.py`: a structural
schema validator (`StructureValidator`), a chain of three transformers
(`NameTransformer`, `PriceTransformer`, `CurrencyTransformer`) and the
orchestrator (`OrderProcessor.process`).  Python values are embedded as
`PyVal`, raised exceptions as `Except` errors: `OrderProcessingError` is the
typed error the orchestrator catches, and any other Python exception
(`ValueError`, `KeyError`, `TypeError`) is `PyErr.exn`, which the
orchestrator does not catch.
-/

/-- A JSON-like Python value: the payloads the pipeline manipulates. -/
inductive PyVal where
  | str (s : String)
  | int (n : Int)
  | dict (fields : List (String × PyVal))
  | pyNone
deriving Repr

/-- `OrderProcessingError(message, error_type="Bad Request")` from `app.py`. -/
structure OrderProcessingError where
  message : String
  error_type : String
deriving Repr, DecidableEq

/-- A raised Python exception: either the typed `OrderProcessingError`
(caught by `OrderProcessor.process`) or any other exception class,
identified by name (`ValueError`, `KeyError`, `TypeError`), which the
orchestrator does not catch. -/
inductive PyErr where
  | processing (e : OrderProcessingError)
  | exn (className : String)
deriving Repr, DecidableEq

/-- First-match association-list lookup, modelling `order_data[key]` /
`key in order_data` on a Python dict (keys of a decoded JSON object are
unique, so first match is the match). -/
def lookupField : List (String × PyVal) → String → Option PyVal
  | [], _ => none
  | (k, v) :: rest, key => if k = key then some v else lookupField rest key

/-- `order_data[key]`: `KeyError` when the key is absent, `TypeError` when
the value is not subscriptable the way a dict is. -/
def dictGet : PyVal → String → Except PyErr PyVal
  | PyVal.dict fields, key =>
    match lookupField fields key with
    | some v => Except.ok v
    | none => Except.error (PyErr.exn "KeyError")
  | _, _ => Except.error (PyErr.exn "TypeError")

/-- `order_data[key] = v` on a dict: updates the existing entry in place
(preserving its position, as Python dicts do) or appends a new one. -/
def setField : List (String × PyVal) → String → PyVal → List (String × PyVal)
  | [], key, v => [(key, v)]
  | (k, w) :: rest, key, v =>
    if k = key then (key, v) :: rest else (k, w) :: setField rest key v

/-- `order_data[key] = v` at the `PyVal` level; only ever applied to dicts
(each use site is guarded by a successful key access on the same value). -/
def dictSet : PyVal → String → PyVal → PyVal
  | PyVal.dict fields, key, v => PyVal.dict (setField fields key v)
  | other, _, _ => other

/- ### The expected structure (`StructureValidator.expected_structure`)

The shape grammar of the source contains exactly two kinds of entry:
a key mapped to the primitive type `str`, and a key mapped to a nested
mapping of the same grammar.  `ExpFields` is the ordered list of entries of
one such mapping. -/

/-- Ordered entries of an expected-shape mapping: `consStr k rest` is the
entry `k: str`, `consNested k sub rest` is the entry `k: {sub}`. -/
inductive ExpFields where
  | nil
  | consStr (key : String) (rest : ExpFields)
  | consNested (key : String) (sub : ExpFields) (rest : ExpFields)

/-- The nested `address` shape from `expected_structure`. -/
def address_structure : ExpFields :=
  ExpFields.consStr "city" (ExpFields.consStr "district"
    (ExpFields.consStr "street" ExpFields.nil))

/-- `StructureValidator.expected_structure` in declared field order. -/
def expected_structure : ExpFields :=
  ExpFields.consStr "id" (ExpFields.consStr "name"
    (ExpFields.consNested "address" address_structure
      (ExpFields.consStr "price" (ExpFields.consStr "currency" ExpFields.nil))))

/-- The loop of `StructureValidator.validate` over the entries of the
expected mapping, given the fields of the (already dict-checked) record.
The recursive `self.validate(order_data[key], value_type)` call on a nested
shape is inlined: its own dict check is the `PyVal.dict` match on the
looked-up value. -/
def StructureValidator.validateLoop (fields : List (String × PyVal)) :
    ExpFields → Except OrderProcessingError Bool
  | ExpFields.nil => Except.ok true
  | ExpFields.consStr key rest =>
    match lookupField fields key with
    | none => Except.error ⟨"Missing key: " ++ key, "Bad Request"⟩
    | some (PyVal.str _) => StructureValidator.validateLoop fields rest
    | some _ => Except.error ⟨"Invalid type for key " ++ key, "Bad Request"⟩
  | ExpFields.consNested key sub rest =>
    match lookupField fields key with
    | none => Except.error ⟨"Missing key: " ++ key, "Bad Request"⟩
    | some (PyVal.dict vfields) =>
      match StructureValidator.validateLoop vfields sub with
      | Except.error e => Except.error e
      | Except.ok false => Except.ok false
      | Except.ok true => StructureValidator.validateLoop fields rest
    | some _ => Except.error ⟨"Invalid order data structure", "Bad Request"⟩

/-- `StructureValidator.validate(order_data, expected)`: dict check, then
the entry loop. -/
def StructureValidator.validate (order_data : PyVal) (expected : ExpFields) :
    Except OrderProcessingError Bool :=
  match order_data with
  | PyVal.dict fields => StructureValidator.validateLoop fields expected
  | _ => Except.error ⟨"Invalid order data structure", "Bad Request"⟩

/- ### Configuration (`config.py`)

`config.py` is imported by `app.py` but is not under `src/`; the values
below are modelled from the spec. -/

/-- Modelled from the spec: `config.MAX_PRICE` is not under `src/`; the
spec fixes the configured maximum price at 2000 ("rejects price `"2001"`
when max is `2000`, message "Price is over 2000."). -/
def cfg.MAX_PRICE : Int := 2000

/-- Modelled from the spec: `config.USD_TO_TWD_RATE` is not under `src/`;
the spec fixes the USD-to-canonical conversion rate at 31. -/
def cfg.USD_TO_TWD_RATE : Int := 31

/-- Modelled from the spec: `config.ALLOWED_CURRENCIES` is not under
`src/`; the spec's allow-list is the canonical code TWD and the foreign
code USD. -/
def cfg.ALLOWED_CURRENCIES : List String := ["TWD", "USD"]

/- ### Python library primitives used by the transformers -/

/-- A character Python's `str.strip()`-style whitespace handling removes at
the ends of a numeric literal: space and the ASCII control whitespace
`\t`..`\r` (the only whitespace relevant to the payloads modelled here). -/
def isPySpace (c : Char) : Bool :=
  c.toNat = 32 || (9 ≤ c.toNat && c.toNat ≤ 13)

/-- Strip leading and trailing whitespace from a character list. -/
def trimChars (l : List Char) : List Char :=
  ((l.dropWhile isPySpace).reverse.dropWhile isPySpace).reverse

/-- Digit-run parser for `int(str)`: one or more ASCII digits, single
underscores permitted between digits, accumulating the value. -/
def digitsAcc : Int → List Char → Option Int
  | acc, [] => some acc
  | _, ['_'] => none
  | acc, '_' :: c :: cs =>
    if c.isDigit then digitsAcc (acc * 10 + (c.toNat - 48 : Int)) cs else none
  | acc, c :: cs =>
    if c.isDigit then digitsAcc (acc * 10 + (c.toNat - 48 : Int)) cs else none

/-- Leading digit then the digit run. -/
def digitsCore : List Char → Option Int
  | [] => none
  | c :: cs => if c.isDigit then digitsAcc (c.toNat - 48 : Int) cs else none

/-- Models Python's `int(str)` on the inputs this pipeline can see:
surrounding ASCII whitespace is stripped, then an optional single sign
followed by ASCII decimal digits (with single underscores between digits).
Anything else — in particular a decimal point, as in `"1000.50"`, or a
non-numeral like `"abc"` — raises `ValueError`, here `none`.
(Non-ASCII digits are outside the modelled input space.) -/
def pyInt (s : String) : Option Int :=
  match trimChars s.data with
  | '+' :: cs => digitsCore cs
  | '-' :: cs => (digitsCore cs).map (fun n => -n)
  | cs => digitsCore cs

/-- `int(v)` on a Python value: a string is parsed (`ValueError` on
failure), an int is returned as is, anything else is a `TypeError`. -/
def pyIntOf : PyVal → Except PyErr Int
  | PyVal.str s =>
    match pyInt s with
    | some n => Except.ok n
    | none => Except.error (PyErr.exn "ValueError")
  | PyVal.int n => Except.ok n
  | _ => Except.error (PyErr.exn "TypeError")

/-- Character class `[A-Za-z ]` of the name regex. -/
def isAllowedChar (c : Char) : Bool :=
  c.toNat = 32 || (65 ≤ c.toNat && c.toNat ≤ 90) || (97 ≤ c.toNat && c.toNat ≤ 122)

/-- Drop the single trailing newline that Python's `$` anchor tolerates. -/
def dropTrailingNl : List Char → List Char
  | [] => []
  | [c] => if c.toNat = 10 then [] else [c]
  | c :: rest => c :: dropTrailingNl rest

/-- Models `re.match("^[A-Za-z ]+$", s) is not None`: at least one
character from `[A-Za-z ]`, spanning the whole string, where `$` also
matches just before a single newline at the very end of the string. -/
def reFullMatch (s : String) : Bool :=
  !(dropTrailingNl s.data).isEmpty && (dropTrailingNl s.data).all isAllowedChar

/-- Per-character compatibility (NFKD) decomposition, modelling
`unicodedata.normalize('NFKD', ·)` on the characters used in this
development: U+FF21 FULLWIDTH LATIN CAPITAL LETTER A decomposes to `A`
(compatibility mapping `<wide> 0041`), U+00E9 LATIN SMALL LETTER E WITH
ACUTE decomposes to `e` followed by U+0301 COMBINING ACUTE ACCENT.  ASCII
characters, combining marks and CJK ideographs have no decomposition and
map to themselves, as does every other character not listed. -/
def nfkdChar (c : Char) : List Char :=
  if c.toNat = 0xFF21 then ['A']
  else if c.toNat = 0xE9 then ['e', Char.ofNat 0x301]
  else [c]

/-- `unicodedata.normalize('NFKD', s)` under the character-wise model
above (none of the modelled characters reorders under canonical
ordering). -/
def nfkd (s : String) : String := String.mk ((s.data.map nfkdChar).flatten)

/-- Python `str.isupper` on one character, restricted to the character
ranges this development touches: ASCII `A-Z`, the Latin-1 uppercase
letters, and the fullwidth uppercase letters U+FF21..U+FF3A. -/
def isUpperPy (c : Char) : Bool :=
  (65 ≤ c.toNat && c.toNat ≤ 90) || (192 ≤ c.toNat && c.toNat ≤ 214) ||
    (216 ≤ c.toNat && c.toNat ≤ 222) || (0xFF21 ≤ c.toNat && c.toNat ≤ 0xFF3A)

/-- Python `str.islower` on one character, same restriction: ASCII `a-z`,
Latin-1 lowercase letters, fullwidth lowercase letters U+FF41..U+FF5A. -/
def isLowerPy (c : Char) : Bool :=
  (97 ≤ c.toNat && c.toNat ≤ 122) || (223 ≤ c.toNat && c.toNat ≤ 246) ||
    (248 ≤ c.toNat && c.toNat ≤ 255) || (0xFF41 ≤ c.toNat && c.toNat ≤ 0xFF5A)

/-- The scan of Python's `str.istitle`: `cased` records whether a cased
character has been seen at all, `prev` whether the previous character was
cased; an uppercase character may only follow an uncased one, a lowercase
character only a cased one, and uncased characters reset `prev`. -/
def istitleGo : Bool → Bool → List Char → Bool
  | cased, _, [] => cased
  | cased, prev, c :: cs =>
    if isUpperPy c then (if prev then false else istitleGo true true cs)
    else if isLowerPy c then (if prev then istitleGo true true cs else false)
    else istitleGo cased false cs

/-- Python `str.istitle()` under the character model above. -/
def istitle (s : String) : Bool := istitleGo false false s.data

/- ### The transformers -/

/-- `NameTransformer.transform`: NFKD-normalize the name, reject if the
normalized text does not fully match `[A-Za-z ]+`, then reject if the
*original* name is not `istitle`; otherwise return the record unchanged. -/
def NameTransformer.transform (order_data : PyVal) : Except PyErr PyVal :=
  match dictGet order_data "name" with
  | Except.error e => Except.error e
  | Except.ok (PyVal.str name) =>
    if !(reFullMatch (nfkd name)) then
      Except.error (PyErr.processing ⟨"Name contains non-English characters.", "Bad Request"⟩)
    else if !(istitle name) then
      Except.error (PyErr.processing ⟨"Name is not capitalized.", "Bad Request"⟩)
    else Except.ok order_data
  | Except.ok _ => Except.error (PyErr.exn "TypeError")

/-- `PriceTransformer.transform`: parse the price with `int(...)`, reject
when it exceeds `cfg.MAX_PRICE`, reject when negative, otherwise return the
record unchanged.  (No decimal-place policy appears in the source.) -/
def PriceTransformer.transform (order_data : PyVal) : Except PyErr PyVal :=
  match dictGet order_data "price" with
  | Except.error e => Except.error e
  | Except.ok p =>
    match pyIntOf p with
    | Except.error e => Except.error e
    | Except.ok n =>
      if n > cfg.MAX_PRICE then
        Except.error (PyErr.processing
          ⟨"Price is over " ++ toString cfg.MAX_PRICE ++ ".", "Bad Request"⟩)
      else if n < 0 then
        Except.error (PyErr.processing ⟨"Price is negative.", "Bad Request"⟩)
      else Except.ok order_data

/-- Whether a currency value lies in the configured allow-list, as Python
membership tests it: a non-string value is never an element of a list of
strings. -/
def isAllowedCurrencyVal : PyVal → Bool
  | PyVal.str s => cfg.ALLOWED_CURRENCIES.contains s
  | _ => false

/-- `CurrencyTransformer.transform`: reject currencies outside
`cfg.ALLOWED_CURRENCIES` (a non-string currency is never in the
allow-list), convert `USD` to `TWD` by multiplying the parsed price by the
rate and re-encoding it as text, pass `TWD` through unchanged. -/
def CurrencyTransformer.transform (order_data : PyVal) : Except PyErr PyVal :=
  match dictGet order_data "currency" with
  | Except.error e => Except.error e
  | Except.ok (PyVal.str order_currency) =>
    if !(cfg.ALLOWED_CURRENCIES.contains order_currency) then
      Except.error (PyErr.processing ⟨"Currency format is wrong.", "Bad Request"⟩)
    else if order_currency = "USD" then
      match dictGet order_data "price" with
      | Except.error e => Except.error e
      | Except.ok p =>
        match pyIntOf p with
        | Except.error e => Except.error e
        | Except.ok n =>
          Except.ok (dictSet
            (dictSet order_data "price" (PyVal.str (toString (n * cfg.USD_TO_TWD_RATE))))
            "currency" (PyVal.str "TWD"))
    else Except.ok order_data
  | Except.ok _ =>
    Except.error (PyErr.processing ⟨"Currency format is wrong.", "Bad Request"⟩)

/- ### The orchestrator -/

/-- Left-to-right fold of `order_data = transformer.transform(order_data)`
over the transformer chain; a raised error stops the chain. -/
def applyChain : List (PyVal → Except PyErr PyVal) → PyVal → Except PyErr PyVal
  | [], d => Except.ok d
  | t :: ts, d =>
    match t d with
    | Except.ok d2 => applyChain ts d2
    | Except.error e => Except.error e

/-- The transformer chain of `process_order`, in source order. -/
def theTransformers : List (PyVal → Except PyErr PyVal) :=
  [NameTransformer.transform, PriceTransformer.transform, CurrencyTransformer.transform]

/-- The success body `{"Success": "Order is processed.", "Order_data": d}`. -/
def successBody (d : PyVal) : PyVal :=
  PyVal.dict [("Success", PyVal.str "Order is processed."), ("Order_data", d)]

/-- The failure body `{"error": e.error_type, "message": str(e)}`. -/
def failBody (e : OrderProcessingError) : PyVal :=
  PyVal.dict [("error", PyVal.str e.error_type), ("message", PyVal.str e.message)]

/-- `OrderProcessor.process` with the `process_order` wiring
(`StructureValidator` and the three-transformer chain): returns the
`(body, status)` pair, or — as the `Except.error` case — the class name of
an uncaught exception escaping the `except OrderProcessingError` handler. -/
def OrderProcessor.process (order_data : PyVal) : Except String (PyVal × Nat) :=
  match StructureValidator.validate order_data expected_structure with
  | Except.error e => Except.ok (failBody e, 400)
  | Except.ok b =>
    if b then
      match applyChain theTransformers order_data with
      | Except.ok d => Except.ok (successBody d, 200)
      | Except.error (PyErr.processing e) => Except.ok (failBody e, 400)
      | Except.error (PyErr.exn n) => Except.error n
    else Except.ok (failBody ⟨"Invalid JSON received", "Bad Request"⟩, 400)

/- ### Spec-side definitions

The spec defines title case by space-delimited words; the definitions below
follow the spec's words so that they can be compared against the code's
`istitle`. -/

/-- ASCII uppercase letter `A-Z`. -/
def isUpperAscii (c : Char) : Bool := 65 ≤ c.toNat && c.toNat ≤ 90

/-- ASCII lowercase letter `a-z`. -/
def isLowerAscii (c : Char) : Bool := 97 ≤ c.toNat && c.toNat ≤ 122

/-- ASCII letter `A-Za-z`. -/
def isAsciiLetter (c : Char) : Bool := isUpperAscii c || isLowerAscii c

/-- Split a character list at every space, keeping empty segments (the
space-delimited "words" of the spec). -/
def splitSp : List Char → List (List Char)
  | [] => [[]]
  | c :: rest =>
    if c.toNat = 32 then [] :: splitSp rest
    else
      match splitSp rest with
      | [] => [[c]]
      | w :: ws => (c :: w) :: ws

/-- Modelled from the spec: a word is title-shaped when "the first
character is uppercase and the remaining characters are lowercase"; an
empty segment constrains nothing. -/
def wordOk : List Char → Bool
  | [] => true
  | c :: rest => isUpperAscii c && rest.all isLowerAscii

/-- Modelled from the spec: "every space-delimited word's first character
is uppercase and the remaining characters are lowercase". -/
def titleCaseSpec (s : String) : Bool := (splitSp s.data).all wordOk

/-- Letter-run scanner used to relate `istitle` to `titleCaseSpec`:
`inRun` records whether the previous character was a cased letter; every
maximal letter run must consist of one uppercase letter followed by
lowercase letters. -/
def runsFrom : Bool → List Char → Bool
  | _, [] => true
  | inRun, c :: rest =>
    if c.toNat = 32 then runsFrom false rest
    else if inRun then isLowerAscii c && runsFrom true rest
    else isUpperAscii c && runsFrom true rest

/- ### Validator lemmas -/

/-- The validator loop never returns `False`: each entry either passes or
raises, and a nested `False` could only arise from a nested `False`. -/
theorem validateLoop_ne_ok_false (es : ExpFields) :
    ∀ fields, StructureValidator.validateLoop fields es ≠ Except.ok false := by
  induction es with
  | nil => intro fields h; simp [StructureValidator.validateLoop] at h
  | consStr key rest ih =>
    intro fields h
    cases hl : lookupField fields key with
    | none => simp [StructureValidator.validateLoop, hl] at h
    | some v =>
      cases v <;> simp [StructureValidator.validateLoop, hl] at h
      exact ih fields h
  | consNested key sub rest ihsub ihrest =>
    intro fields h
    cases hl : lookupField fields key with
    | none => simp [StructureValidator.validateLoop, hl] at h
    | some v =>
      cases v <;> simp [StructureValidator.validateLoop, hl] at h
      case dict vfields =>
        cases hs : StructureValidator.validateLoop vfields sub with
        | error e => simp [hs] at h
        | ok b =>
          cases b with
          | false => exact ihsub vfields hs
          | true => rw [hs] at h; exact ihrest fields h

/-- `StructureValidator.validate` never returns `False` on any input. -/
theorem validate_ne_ok_false (es : ExpFields) (d : PyVal) :
    StructureValidator.validate d es ≠ Except.ok false := by
  cases d <;> simp [StructureValidator.validate]
  exact validateLoop_ne_ok_false es _

/-- Passing a `str`-typed entry means the key is present with a string
value and the rest of the loop also passes. -/
theorem consStr_ok_true {fields : List (String × PyVal)} {key : String} {rest : ExpFields}
    (H : StructureValidator.validateLoop fields (ExpFields.consStr key rest) = Except.ok true) :
    (∃ s, lookupField fields key = some (PyVal.str s)) ∧
      StructureValidator.validateLoop fields rest = Except.ok true := by
  cases hl : lookupField fields key with
  | none => simp [StructureValidator.validateLoop, hl] at H
  | some v =>
    cases v <;> simp [StructureValidator.validateLoop, hl] at H
    case str s => exact ⟨⟨s, rfl⟩, H⟩

/-- Passing a nested entry means the key is present with a mapping that
itself validates to `True`, and the rest of the loop also passes. -/
theorem consNested_ok_true {fields : List (String × PyVal)} {key : String}
    {sub rest : ExpFields}
    (H : StructureValidator.validateLoop fields (ExpFields.consNested key sub rest) =
      Except.ok true) :
    (∃ vfields, lookupField fields key = some (PyVal.dict vfields) ∧
        StructureValidator.validateLoop vfields sub = Except.ok true) ∧
      StructureValidator.validateLoop fields rest = Except.ok true := by
  cases hl : lookupField fields key with
  | none => simp [StructureValidator.validateLoop, hl] at H
  | some v =>
    cases v <;> simp [StructureValidator.validateLoop, hl] at H
    case dict vfields =>
      cases hs : StructureValidator.validateLoop vfields sub with
      | error e => rw [hs] at H; exact absurd H (by simp)
      | ok b =>
        cases b with
        | false => exact absurd hs (validateLoop_ne_ok_false sub vfields)
        | true => rw [hs] at H; exact ⟨⟨vfields, rfl, hs⟩, H⟩

/-- The errors a `str`-typed entry can raise. -/
theorem consStr_err {fields : List (String × PyVal)} {key : String} {rest : ExpFields}
    {e : OrderProcessingError}
    (H : StructureValidator.validateLoop fields (ExpFields.consStr key rest) =
      Except.error e) :
    e = ⟨"Missing key: " ++ key, "Bad Request"⟩ ∨
      e = ⟨"Invalid type for key " ++ key, "Bad Request"⟩ ∨
      StructureValidator.validateLoop fields rest = Except.error e := by
  cases hl : lookupField fields key with
  | none =>
    simp [StructureValidator.validateLoop, hl] at H
    exact Or.inl H.symm
  | some v =>
    cases v <;> simp [StructureValidator.validateLoop, hl] at H
    case str s => exact Or.inr (Or.inr H)
    all_goals exact Or.inr (Or.inl H.symm)

/-- The errors a nested entry can raise. -/
theorem consNested_err {fields : List (String × PyVal)} {key : String}
    {sub rest : ExpFields} {e : OrderProcessingError}
    (H : StructureValidator.validateLoop fields (ExpFields.consNested key sub rest) =
      Except.error e) :
    e = ⟨"Missing key: " ++ key, "Bad Request"⟩ ∨
      e = ⟨"Invalid order data structure", "Bad Request"⟩ ∨
      (∃ vfields, StructureValidator.validateLoop vfields sub = Except.error e) ∨
      StructureValidator.validateLoop fields rest = Except.error e := by
  cases hl : lookupField fields key with
  | none =>
    simp [StructureValidator.validateLoop, hl] at H
    exact Or.inl H.symm
  | some v =>
    cases v <;> simp [StructureValidator.validateLoop, hl] at H
    case dict vfields =>
      cases hs : StructureValidator.validateLoop vfields sub with
      | error e2 =>
        rw [hs] at H
        refine Or.inr (Or.inr (Or.inl ⟨vfields, ?_⟩))
        cases H; exact hs
      | ok b =>
        cases b with
        | false => exact absurd hs (validateLoop_ne_ok_false sub vfields)
        | true => rw [hs] at H; exact Or.inr (Or.inr (Or.inr H))
    all_goals exact Or.inr (Or.inl H.symm)

/-- A list with no entries raises nothing. -/
theorem nil_err {fields : List (String × PyVal)} {e : OrderProcessingError}
    (H : StructureValidator.validateLoop fields ExpFields.nil = Except.error e) : False := by
  simp [StructureValidator.validateLoop] at H

/-- Every error `StructureValidator.validate` can produce for the declared
`expected_structure` names a structural problem; in particular its message
is never the orchestrator's defensive "Invalid JSON received". -/
theorem validate_concrete_err_msg (d : PyVal) (e : OrderProcessingError)
    (H : StructureValidator.validate d expected_structure = Except.error e) :
    e.message ≠ "Invalid JSON received" := by
  cases d with
  | dict fields =>
    simp only [StructureValidator.validate] at H
    rcases consStr_err H with h | h | H2
    · subst h; decide
    · subst h; decide
    rcases consStr_err H2 with h | h | H3
    · subst h; decide
    · subst h; decide
    rcases consNested_err H3 with h | h | ⟨vf, Hv⟩ | H4
    · subst h; decide
    · subst h; decide
    · rcases consStr_err Hv with h | h | Hv2
      · subst h; decide
      · subst h; decide
      rcases consStr_err Hv2 with h | h | Hv3
      · subst h; decide
      · subst h; decide
      rcases consStr_err Hv3 with h | h | Hv4
      · subst h; decide
      · subst h; decide
      exact absurd Hv4 (fun x => nil_err x)
    rcases consStr_err H4 with h | h | H5
    · subst h; decide
    · subst h; decide
    rcases consStr_err H5 with h | h | H6
    · subst h; decide
    · subst h; decide
    exact absurd H6 (fun x => nil_err x)
  | str s =>
    simp [StructureValidator.validate] at H
    rw [← H]; decide
  | int n =>
    simp [StructureValidator.validate] at H
    rw [← H]; decide
  | pyNone =>
    simp [StructureValidator.validate] at H
    rw [← H]; decide

/- ### Transformer error lemmas -/

/-- A failed item access raises an untyped exception, never an
`OrderProcessingError`. -/
theorem dictGet_err {d : PyVal} {k : String} {pe : PyErr}
    (H : dictGet d k = Except.error pe) : ∃ s, pe = PyErr.exn s := by
  cases d <;> simp [dictGet] at H
  case dict fields =>
    cases hl : lookupField fields k <;> simp [hl] at H
    exact ⟨"KeyError", H.symm⟩
  all_goals exact ⟨"TypeError", H.symm⟩

/-- A failed `int(...)` raises an untyped exception, never an
`OrderProcessingError`. -/
theorem pyIntOf_err {p : PyVal} {pe : PyErr}
    (H : pyIntOf p = Except.error pe) : ∃ s, pe = PyErr.exn s := by
  cases p <;> simp [pyIntOf] at H
  case str s =>
    cases hp : pyInt s <;> simp [hp] at H
    exact ⟨"ValueError", H.symm⟩
  all_goals exact ⟨"TypeError", H.symm⟩

/-- The typed errors `NameTransformer` can raise. -/
theorem name_transform_err {d : PyVal} {e : OrderProcessingError}
    (H : NameTransformer.transform d = Except.error (PyErr.processing e)) :
    e = ⟨"Name contains non-English characters.", "Bad Request"⟩ ∨
      e = ⟨"Name is not capitalized.", "Bad Request"⟩ := by
  unfold NameTransformer.transform at H
  cases hg : dictGet d "name" with
  | error pe =>
    rw [hg] at H
    obtain ⟨s, rfl⟩ := dictGet_err hg
    simp at H
  | ok v =>
    rw [hg] at H
    cases v <;> simp at H
    case str s =>
      cases h1 : reFullMatch (nfkd s) <;> simp [h1] at H
      · exact Or.inl H.symm
      · cases h2 : istitle s <;> simp [h2] at H
        exact Or.inr H.symm

/-- The typed errors `PriceTransformer` can raise. -/
theorem price_transform_err {d : PyVal} {e : OrderProcessingError}
    (H : PriceTransformer.transform d = Except.error (PyErr.processing e)) :
    e = ⟨"Price is over 2000.", "Bad Request"⟩ ∨
      e = ⟨"Price is negative.", "Bad Request"⟩ := by
  unfold PriceTransformer.transform at H
  cases hg : dictGet d "price" with
  | error pe =>
    simp only [hg] at H
    obtain ⟨s, rfl⟩ := dictGet_err hg
    simp at H
  | ok p =>
    simp only [hg] at H
    cases hi : pyIntOf p with
    | error pe =>
      simp only [hi] at H
      obtain ⟨s, rfl⟩ := pyIntOf_err hi
      simp at H
    | ok n =>
      simp only [hi] at H
      by_cases hgt : n > cfg.MAX_PRICE
      · rw [if_pos hgt] at H
        obtain rfl : (⟨"Price is over " ++ toString cfg.MAX_PRICE ++ ".", "Bad Request"⟩ :
            OrderProcessingError) = e := by simpa using H
        left; decide
      · rw [if_neg hgt] at H
        by_cases hneg : n < 0
        · rw [if_pos hneg] at H
          obtain rfl : (⟨"Price is negative.", "Bad Request"⟩ :
              OrderProcessingError) = e := by simpa using H
          right; rfl
        · rw [if_neg hneg] at H
          exact absurd H (by simp)

/-- The typed error `CurrencyTransformer` can raise. -/
theorem currency_transform_err {d : PyVal} {e : OrderProcessingError}
    (H : CurrencyTransformer.transform d = Except.error (PyErr.processing e)) :
    e = ⟨"Currency format is wrong.", "Bad Request"⟩ := by
  unfold CurrencyTransformer.transform at H
  cases hg : dictGet d "currency" with
  | error pe =>
    simp only [hg] at H
    obtain ⟨s, rfl⟩ := dictGet_err hg
    simp at H
  | ok v =>
    rw [hg] at H
    cases v with
    | str s =>
      simp only [Except.ok.injEq] at H
      cases hc : cfg.ALLOWED_CURRENCIES.contains s with
      | false =>
        rw [hc] at H
        simp only [Bool.not_false] at H
        rw [if_pos trivial] at H
        obtain rfl : (⟨"Currency format is wrong.", "Bad Request"⟩ :
            OrderProcessingError) = e := by simpa using H
        rfl
      | true =>
        rw [hc] at H
        simp only [Bool.not_true] at H
        rw [if_neg Bool.false_ne_true] at H
        by_cases hu : s = "USD"
        · rw [if_pos hu] at H
          cases hp : dictGet d "price" with
          | error pe =>
            simp only [hp] at H
            obtain ⟨t, rfl⟩ := dictGet_err hp
            simp at H
          | ok p =>
            simp only [hp] at H
            cases hi : pyIntOf p with
            | error pe =>
              simp only [hi] at H
              obtain ⟨t, rfl⟩ := pyIntOf_err hi
              simp at H
            | ok n => simp only [hi] at H; exact absurd H (by simp)
        · rw [if_neg hu] at H
          exact absurd H (by simp)
    | int n =>
      simp only [Except.ok.injEq] at H
      simpa using H.symm
    | dict fields =>
      simp only [Except.ok.injEq] at H
      simpa using H.symm
    | pyNone =>
      simp only [Except.ok.injEq] at H
      simpa using H.symm

/-- The typed errors the whole transformer chain can raise; none of their
messages is the defensive "Invalid JSON received". -/
theorem chain_err_msg {d : PyVal} {e : OrderProcessingError}
    (H : applyChain theTransformers d = Except.error (PyErr.processing e)) :
    e.message ≠ "Invalid JSON received" := by
  simp only [theTransformers, applyChain] at H
  cases h1 : NameTransformer.transform d with
  | error pe =>
    simp only [h1] at H
    obtain rfl : pe = PyErr.processing e := by simpa using H
    rcases name_transform_err h1 with h | h <;> (subst h; decide)
  | ok d1 =>
    simp only [h1] at H
    cases h2 : PriceTransformer.transform d1 with
    | error pe =>
      simp only [h2] at H
      obtain rfl : pe = PyErr.processing e := by simpa using H
      rcases price_transform_err h2 with h | h <;> (subst h; decide)
    | ok d2 =>
      simp only [h2] at H
      cases h3 : CurrencyTransformer.transform d2 with
      | error pe =>
        simp only [h3] at H
        obtain rfl : pe = PyErr.processing e := by simpa using H
        rw [currency_transform_err h3]; decide
      | ok d3 => simp only [h3] at H; exact absurd H (by simp)

/- ### Character-class lemmas and the title-case correspondence -/

/-- The three kinds of characters in the `[A-Za-z ]` class. -/
theorem allowed_char_cases {c : Char} (h : isAllowedChar c = true) :
    c.toNat = 32 ∨ (65 ≤ c.toNat ∧ c.toNat ≤ 90) ∨ (97 ≤ c.toNat ∧ c.toNat ≤ 122) := by
  have h2 : (c.toNat = 32 ∨ 65 ≤ c.toNat ∧ c.toNat ≤ 90) ∨ 97 ≤ c.toNat ∧ c.toNat ≤ 122 := by
    simpa [isAllowedChar] using h
  tauto

/-- Class evaluation on a space. -/
theorem space_char_classes {c : Char} (h : c.toNat = 32) :
    isUpperPy c = false ∧ isLowerPy c = false ∧ isAsciiLetter c = false := by
  refine ⟨?_, ?_, ?_⟩ <;> simp [isUpperPy, isLowerPy, isAsciiLetter, isUpperAscii, isLowerAscii] <;> omega

/-- Class evaluation on an ASCII uppercase letter. -/
theorem upper_char_classes {c : Char} (h : 65 ≤ c.toNat ∧ c.toNat ≤ 90) :
    isUpperPy c = true ∧ isLowerPy c = false ∧ isUpperAscii c = true ∧
      isLowerAscii c = false ∧ isAsciiLetter c = true ∧ c.toNat ≠ 32 := by
  obtain ⟨h1, h2⟩ := h
  refine ⟨?_, ?_, ?_, ?_, ?_, ?_⟩ <;>
    simp [isUpperPy, isLowerPy, isAsciiLetter, isUpperAscii, isLowerAscii] <;> omega

/-- Class evaluation on an ASCII lowercase letter. -/
theorem lower_char_classes {c : Char} (h : 97 ≤ c.toNat ∧ c.toNat ≤ 122) :
    isUpperPy c = false ∧ isLowerPy c = true ∧ isUpperAscii c = false ∧
      isLowerAscii c = true ∧ isAsciiLetter c = true ∧ c.toNat ≠ 32 := by
  obtain ⟨h1, h2⟩ := h
  refine ⟨?_, ?_, ?_, ?_, ?_, ?_⟩ <;>
    simp [isUpperPy, isLowerPy, isAsciiLetter, isUpperAscii, isLowerAscii] <;> omega

/-- On `[A-Za-z ]` characters, the `istitle` scan computes "a letter was
seen and every maximal letter run is one uppercase letter followed by
lowercase letters". -/
theorem istitleGo_eq (l : List Char) (hall : ∀ c ∈ l, isAllowedChar c = true) :
    (∀ cased, istitleGo cased false l = ((cased || l.any isAsciiLetter) && runsFrom false l))
  ∧ (∀ cased, istitleGo cased true l = ((cased || l.any isAsciiLetter) && runsFrom true l)) := by
  induction l with
  | nil => simp [istitleGo, runsFrom]
  | cons c rest ih =>
    have hc := hall c (List.mem_cons_self c rest)
    obtain ⟨ihF, ihT⟩ := ih (fun x hx => hall x (List.mem_cons_of_mem _ hx))
    rcases allowed_char_cases hc with h32 | hup | hlow
    · obtain ⟨e1, e2, e3⟩ := space_char_classes h32
      constructor <;> intro cased <;>
        simp [istitleGo, runsFrom, e1, e2, e3, h32, ihF, ihT]
    · obtain ⟨e1, e2, e3, e4, e5, e6⟩ := upper_char_classes hup
      constructor <;> intro cased <;>
        simp [istitleGo, runsFrom, e1, e2, e3, e4, e5, e6, ihF, ihT]
    · obtain ⟨e1, e2, e3, e4, e5, e6⟩ := lower_char_classes hlow
      constructor <;> intro cased <;>
        simp [istitleGo, runsFrom, e1, e2, e3, e4, e5, e6, ihF, ihT]

/-- `splitSp` always yields at least one (possibly empty) word. -/
theorem splitSp_ne_nil (l : List Char) : splitSp l ≠ [] := by
  induction l with
  | nil => simp [splitSp]
  | cons c rest ih =>
    by_cases h : c.toNat = 32
    · simp [splitSp, h]
    · cases hsp : splitSp rest with
      | nil => exact absurd hsp ih
      | cons w ws => simp [splitSp, h, hsp]

/-- The letter-run scan agrees with the space-split word test. -/
theorem runsFrom_eq_splitSp (l : List Char) :
    (runsFrom false l = (splitSp l).all wordOk)
  ∧ (runsFrom true l =
      ((splitSp l).headI.all isLowerAscii && (splitSp l).tail.all wordOk)) := by
  induction l with
  | nil => simp [runsFrom, splitSp, wordOk]
  | cons c rest ih =>
    obtain ⟨ihF, ihT⟩ := ih
    by_cases h32 : c.toNat = 32
    · simp [runsFrom, splitSp, h32, wordOk, ihF]
    · cases hsp : splitSp rest with
      | nil => exact absurd hsp (splitSp_ne_nil rest)
      | cons w ws =>
        rw [hsp] at ihF ihT
        simp only [List.headI, List.tail] at ihT
        constructor <;>
          simp [runsFrom, splitSp, h32, hsp, wordOk, ihT, Bool.and_assoc]

/-- On names made of ASCII letters and spaces that contain at least one
letter, the code's `istitle` coincides with the spec's space-delimited
title-case test. -/
theorem istitle_eq_titleCaseSpec (s : String)
    (hall : s.data.all isAllowedChar = true)
    (hletter : s.data.any isAsciiLetter = true) :
    istitle s = titleCaseSpec s := by
  have h := (istitleGo_eq s.data (by simpa using hall)).1 false
  rw [istitle, h, hletter, titleCaseSpec, (runsFrom_eq_splitSp s.data).1]
  simp

/- ### The claims -/

/-- C1: the spec and the repository's own unit test
(`test_price_decimal_places`) require a currency-dependent decimal-place
policy in `PriceTransformer` — "Price has decimal places." for a
zero-fractional-digit currency, "Price decimal places are wrong." beyond a
currency's limit, acceptance within the limit — but the source transformer
has no such branch: on every decimal-bearing price, including the
test-mandated accept case `("USD", "1000.50")`, `int(order_data["price"])`
raises an uncaught `ValueError` instead. -/
theorem C1_decimal_policy_not_implemented :
    PriceTransformer.transform
        (PyVal.dict [("price", PyVal.str "1000.50"), ("currency", PyVal.str "TWD")]) =
      Except.error (PyErr.exn "ValueError")
  ∧ PriceTransformer.transform
        (PyVal.dict [("price", PyVal.str "1000.50"), ("currency", PyVal.str "USD")]) =
      Except.error (PyErr.exn "ValueError")
  ∧ PriceTransformer.transform
        (PyVal.dict [("price", PyVal.str "1000.555"), ("currency", PyVal.str "USD")]) =
      Except.error (PyErr.exn "ValueError") :=
  ⟨rfl, rfl, rfl⟩

/-- C2: `CurrencyTransformer.transform` rejects a currency outside the
allow-list with "Currency format is wrong.", rewrites a USD record's price
to the rate-multiplied integer re-encoded as text (the parsed price and
the rate are integers, so `round` is the identity) with currency rewritten
to TWD, and passes a TWD record through unchanged; concretely, USD price
"100" at rate 31 becomes TWD "3100". -/
theorem C2_currency_transformer :
    (∀ d c, dictGet d "currency" = Except.ok c → isAllowedCurrencyVal c = false →
      CurrencyTransformer.transform d =
        Except.error (PyErr.processing ⟨"Currency format is wrong.", "Bad Request"⟩))
  ∧ (∀ d p n, dictGet d "currency" = Except.ok (PyVal.str "USD") →
      dictGet d "price" = Except.ok p → pyIntOf p = Except.ok n →
      CurrencyTransformer.transform d =
        Except.ok (dictSet
          (dictSet d "price" (PyVal.str (toString (n * cfg.USD_TO_TWD_RATE))))
          "currency" (PyVal.str "TWD")))
  ∧ (∀ d, dictGet d "currency" = Except.ok (PyVal.str "TWD") →
      CurrencyTransformer.transform d = Except.ok d)
  ∧ CurrencyTransformer.transform
        (PyVal.dict [("currency", PyVal.str "USD"), ("price", PyVal.str "100")]) =
      Except.ok (PyVal.dict [("currency", PyVal.str "TWD"), ("price", PyVal.str "3100")]) := by
  refine ⟨?_, ?_, ?_, rfl⟩
  · intro d c h1 h2
    unfold CurrencyTransformer.transform
    rw [h1]
    cases c with
    | str s =>
      simp only [Except.ok.injEq]
      have hc : cfg.ALLOWED_CURRENCIES.contains s = false := h2
      rw [hc]
      simp only [Bool.not_false]
      rw [if_pos trivial]
    | int n => rfl
    | dict fields => rfl
    | pyNone => rfl
  · intro d p n h1 h2 h3
    unfold CurrencyTransformer.transform
    rw [h1]
    simp only [Except.ok.injEq]
    rw [show cfg.ALLOWED_CURRENCIES.contains "USD" = true from rfl]
    simp only [Bool.not_true]
    rw [if_neg Bool.false_ne_true]
    rw [if_pos trivial]
    rw [h2]
    simp only [h3]
  · intro d h1
    unfold CurrencyTransformer.transform
    rw [h1]
    simp only [Except.ok.injEq]
    rw [show cfg.ALLOWED_CURRENCIES.contains "TWD" = true from rfl]
    simp only [Bool.not_true]
    rw [if_neg Bool.false_ne_true, if_neg (by decide)]

/-- C2 witness: a concrete EUR record is rejected, a concrete USD record
is converted, a concrete TWD record passes through. -/
theorem C2_currency_transformer_witness :
    CurrencyTransformer.transform
        (PyVal.dict [("currency", PyVal.str "EUR"), ("price", PyVal.str "100")]) =
      Except.error (PyErr.processing ⟨"Currency format is wrong.", "Bad Request"⟩)
  ∧ CurrencyTransformer.transform
        (PyVal.dict [("currency", PyVal.str "USD"), ("price", PyVal.str "100")]) =
      Except.ok (dictSet
        (dictSet (PyVal.dict [("currency", PyVal.str "USD"), ("price", PyVal.str "100")])
          "price" (PyVal.str (toString ((100 : Int) * cfg.USD_TO_TWD_RATE))))
        "currency" (PyVal.str "TWD"))
  ∧ CurrencyTransformer.transform
        (PyVal.dict [("currency", PyVal.str "TWD"), ("price", PyVal.str "1000")]) =
      Except.ok (PyVal.dict [("currency", PyVal.str "TWD"), ("price", PyVal.str "1000")]) :=
  ⟨C2_currency_transformer.1
      (PyVal.dict [("currency", PyVal.str "EUR"), ("price", PyVal.str "100")])
      (PyVal.str "EUR") rfl rfl,
    C2_currency_transformer.2.1
      (PyVal.dict [("currency", PyVal.str "USD"), ("price", PyVal.str "100")])
      (PyVal.str "100") 100 rfl rfl rfl,
    C2_currency_transformer.2.2.1
      (PyVal.dict [("currency", PyVal.str "TWD"), ("price", PyVal.str "1000")]) rfl⟩

/-- C5: `PriceTransformer.transform` parses the price and rejects a value
above the configured maximum with "Price is over 2000.", rejects a
negative value with "Price is negative.", and otherwise returns the record
unchanged; concretely "2001" is rejected, "2000" accepted, "-100"
rejected. -/
theorem C5_price_bounds :
    (∀ d p n, dictGet d "price" = Except.ok p → pyIntOf p = Except.ok n →
        (n > cfg.MAX_PRICE → PriceTransformer.transform d =
          Except.error (PyErr.processing ⟨"Price is over 2000.", "Bad Request"⟩))
      ∧ (n < 0 → PriceTransformer.transform d =
          Except.error (PyErr.processing ⟨"Price is negative.", "Bad Request"⟩))
      ∧ (0 ≤ n → n ≤ cfg.MAX_PRICE → PriceTransformer.transform d = Except.ok d))
  ∧ PriceTransformer.transform (PyVal.dict [("price", PyVal.str "2001")]) =
      Except.error (PyErr.processing ⟨"Price is over 2000.", "Bad Request"⟩)
  ∧ PriceTransformer.transform (PyVal.dict [("price", PyVal.str "2000")]) =
      Except.ok (PyVal.dict [("price", PyVal.str "2000")])
  ∧ PriceTransformer.transform (PyVal.dict [("price", PyVal.str "-100")]) =
      Except.error (PyErr.processing ⟨"Price is negative.", "Bad Request"⟩) := by
  refine ⟨?_, rfl, rfl, rfl⟩
  intro d p n h1 h2
  unfold PriceTransformer.transform
  rw [h1]
  simp only [h2]
  refine ⟨?_, ?_, ?_⟩
  · intro hgt
    rw [if_pos hgt]
    rfl
  · intro hneg
    have hgt : ¬ (n > cfg.MAX_PRICE) := by simp only [cfg.MAX_PRICE]; omega
    rw [if_neg hgt, if_pos hneg]
  · intro h0 hle
    rw [if_neg (by omega : ¬ (n > cfg.MAX_PRICE)), if_neg (by omega : ¬ (n < 0))]

/-- C5 witness: the general bound statements applied at "2001", "-100" and
"2000". -/
theorem C5_price_bounds_witness :
    PriceTransformer.transform (PyVal.dict [("price", PyVal.str "2001"), ("id", PyVal.str "1")]) =
      Except.error (PyErr.processing ⟨"Price is over 2000.", "Bad Request"⟩)
  ∧ PriceTransformer.transform (PyVal.dict [("price", PyVal.str "-100"), ("id", PyVal.str "1")]) =
      Except.error (PyErr.processing ⟨"Price is negative.", "Bad Request"⟩)
  ∧ PriceTransformer.transform (PyVal.dict [("price", PyVal.str "2000"), ("id", PyVal.str "1")]) =
      Except.ok (PyVal.dict [("price", PyVal.str "2000"), ("id", PyVal.str "1")]) :=
  ⟨(C5_price_bounds.1 (PyVal.dict [("price", PyVal.str "2001"), ("id", PyVal.str "1")])
      (PyVal.str "2001") 2001 rfl rfl).1 (by decide),
   (C5_price_bounds.1 (PyVal.dict [("price", PyVal.str "-100"), ("id", PyVal.str "1")])
      (PyVal.str "-100") (-100) rfl rfl).2.1 (by decide),
   (C5_price_bounds.1 (PyVal.dict [("price", PyVal.str "2000"), ("id", PyVal.str "1")])
      (PyVal.str "2000") 2000 rfl rfl).2.2 (by decide) (by decide)⟩

/-- C3 counterexample: the name "Ａbc" contains U+FF21 FULLWIDTH LATIN
CAPITAL LETTER A, a character outside `A-Z a-z space`, yet
`NameTransformer` accepts the record: NFKD decomposes the fullwidth letter
to plain "A", so the normalized text passes the charset check (and
`istitle` passes as well), refuting "any name containing a character
outside A-Z a-z space is rejected by this check". -/
theorem C3_charset_counterexample :
    (Char.ofNat 0xFF21) ∈ "Ａbc".data
  ∧ isAllowedChar (Char.ofNat 0xFF21) = false
  ∧ NameTransformer.transform (PyVal.dict [("name", PyVal.str "Ａbc")]) =
      Except.ok (PyVal.dict [("name", PyVal.str "Ａbc")]) :=
  ⟨by decide, by decide, rfl⟩

/-- C3 (amended): `NameTransformer` raises "Name contains non-English
characters." exactly when the NFKD-normalized name fails the full
`[A-Za-z ]+` match; diacritic-bearing variants such as "José" are rejected
because their decompositions contain combining marks, and so are names
with other non-Latin characters such as "Invalid 名字", but a
compatibility character that decomposes to ASCII letters (fullwidth "Ａ")
passes the check despite lying outside `A-Z a-z space`. -/
theorem C3_charset_check :
    (∀ d s, dictGet d "name" = Except.ok (PyVal.str s) →
      (NameTransformer.transform d =
          Except.error (PyErr.processing ⟨"Name contains non-English characters.", "Bad Request"⟩)
        ↔ reFullMatch (nfkd s) = false))
  ∧ NameTransformer.transform (PyVal.dict [("name", PyVal.str "José")]) =
      Except.error (PyErr.processing ⟨"Name contains non-English characters.", "Bad Request"⟩)
  ∧ NameTransformer.transform (PyVal.dict [("name", PyVal.str "Invalid 名字")]) =
      Except.error (PyErr.processing ⟨"Name contains non-English characters.", "Bad Request"⟩)
  ∧ NameTransformer.transform (PyVal.dict [("name", PyVal.str "Ａbc")]) =
      Except.ok (PyVal.dict [("name", PyVal.str "Ａbc")]) := by
  refine ⟨?_, rfl, rfl, rfl⟩
  intro d s h1
  unfold NameTransformer.transform
  rw [h1]
  simp only [Except.ok.injEq]
  constructor
  · intro H
    cases hm : reFullMatch (nfkd s) with
    | false => rfl
    | true =>
      rw [hm] at H
      simp only [Bool.not_true] at H
      rw [if_neg Bool.false_ne_true] at H
      cases ht : istitle s with
      | true =>
        rw [ht] at H
        simp only [Bool.not_true] at H
        rw [if_neg Bool.false_ne_true] at H
        exact absurd H (by simp)
      | false =>
        rw [ht] at H
        simp only [Bool.not_false] at H
        rw [if_pos trivial] at H
        simp only [Except.error.injEq, PyErr.processing.injEq] at H
        exact absurd H (by decide)
  · intro hm
    rw [hm]
    simp only [Bool.not_false]
    rw [if_pos trivial]

/-- C3 witness: the rejection criterion applied to the unit test's
non-English name. -/
theorem C3_charset_check_witness :
    NameTransformer.transform (PyVal.dict [("name", PyVal.str "名字")]) =
        Except.error (PyErr.processing ⟨"Name contains non-English characters.", "Bad Request"⟩)
      ↔ reFullMatch (nfkd "名字") = false :=
  C3_charset_check.1 (PyVal.dict [("name", PyVal.str "名字")]) "名字" rfl

/-- C8 counterexample: the name "Abc\n" passes the charset check (Python's
`$` anchor matches just before a single trailing newline), is not in title
case under the spec's definition (the space-delimited word "Abc\n" has the
non-lowercase remaining character `\n`), and yet `NameTransformer` accepts
the record because `istitle` ignores the uncased trailing newline —
refuting the claimed "raises iff the original name is not in title
case". -/
theorem C8_capitalization_counterexample :
    reFullMatch (nfkd "Abc\n") = true
  ∧ titleCaseSpec "Abc\n" = false
  ∧ NameTransformer.transform (PyVal.dict [("name", PyVal.str "Abc\n")]) =
      Except.ok (PyVal.dict [("name", PyVal.str "Abc\n")]) :=
  ⟨by decide, by decide, rfl⟩

/-- C8 (amended): for a record whose name passes the charset check,
`NameTransformer` raises "Name is not capitalized." exactly when Python's
`istitle` is false on the unmodified name; on names consisting only of
ASCII letters and spaces with at least one letter this coincides with the
spec's space-delimited title-case definition (an all-space name is
rejected, and a name with a trailing newline passes the charset check with
the newline ignored by the capitalization check). -/
theorem C8_capitalization_check :
    (∀ d s, dictGet d "name" = Except.ok (PyVal.str s) → reFullMatch (nfkd s) = true →
      (NameTransformer.transform d =
          Except.error (PyErr.processing ⟨"Name is not capitalized.", "Bad Request"⟩)
        ↔ istitle s = false))
  ∧ (∀ s, s.data.all isAllowedChar = true → s.data.any isAsciiLetter = true →
      istitle s = titleCaseSpec s) := by
  refine ⟨?_, istitle_eq_titleCaseSpec⟩
  intro d s h1 hm
  unfold NameTransformer.transform
  rw [h1]
  simp only [Except.ok.injEq]
  rw [hm]
  simp only [Bool.not_true]
  rw [if_neg Bool.false_ne_true]
  constructor
  · intro H
    cases ht : istitle s with
    | false => rfl
    | true =>
      rw [ht] at H
      simp only [Bool.not_true] at H
      rw [if_neg Bool.false_ne_true] at H
      exact absurd H (by simp)
  · intro ht
    rw [ht]
    simp only [Bool.not_false]
    rw [if_pos trivial]

/-- C8 witness: the criterion applied to the spec's end-to-end failing
name "invalid name". -/
theorem C8_capitalization_check_witness :
    NameTransformer.transform (PyVal.dict [("name", PyVal.str "invalid name")]) =
      Except.error (PyErr.processing ⟨"Name is not capitalized.", "Bad Request"⟩) :=
  (C8_capitalization_check.1 (PyVal.dict [("name", PyVal.str "invalid name")])
    "invalid name" rfl rfl).mpr rfl

/-- C4: `StructureValidator.validate` rejects a non-mapping with "Invalid
order data structure"; reports the first offending field in declared order
("Missing key: name" when both `name` and later fields are bad, "Invalid
type for key id" for a mistyped `id`), recursing nested-before-sibling
(a mistyped `address.district` is reported even though the sibling `price`
is missing); and a record can only validate to `True` when its `address`
value itself validates to `True` against the nested shape, so a record
with a broken nested address is never accepted. -/
theorem C4_schema_validator :
    StructureValidator.validate (PyVal.int 3) expected_structure =
      Except.error ⟨"Invalid order data structure", "Bad Request"⟩
  ∧ StructureValidator.validate
      (PyVal.dict [("id", PyVal.str "123"), ("currency", PyVal.int 5)]) expected_structure =
      Except.error ⟨"Missing key: name", "Bad Request"⟩
  ∧ StructureValidator.validate
      (PyVal.dict [("id", PyVal.int 123), ("name", PyVal.str "Test Order"),
        ("address", PyVal.dict [("city", PyVal.str "Taipei"), ("district", PyVal.str "Xinyi"),
          ("street", PyVal.str "Main St")]),
        ("price", PyVal.str "1000"), ("currency", PyVal.str "TWD")]) expected_structure =
      Except.error ⟨"Invalid type for key id", "Bad Request"⟩
  ∧ StructureValidator.validate
      (PyVal.dict [("id", PyVal.str "1"), ("name", PyVal.str "A"),
        ("address", PyVal.dict [("city", PyVal.str "x"), ("district", PyVal.int 0),
          ("street", PyVal.str "y")]),
        ("currency", PyVal.int 9)]) expected_structure =
      Except.error ⟨"Invalid type for key district", "Bad Request"⟩
  ∧ (∀ fields, StructureValidator.validate (PyVal.dict fields) expected_structure =
        Except.ok true →
      ∃ a, lookupField fields "address" = some a ∧
        StructureValidator.validate a address_structure = Except.ok true)
  ∧ (∀ fields a, lookupField fields "address" = some a →
      StructureValidator.validate a address_structure ≠ Except.ok true →
      StructureValidator.validate (PyVal.dict fields) expected_structure ≠
        Except.ok true) := by
  have h5 : ∀ fields, StructureValidator.validate (PyVal.dict fields) expected_structure =
        Except.ok true →
      ∃ a, lookupField fields "address" = some a ∧
        StructureValidator.validate a address_structure = Except.ok true := by
    intro fields H
    have H' : StructureValidator.validateLoop fields expected_structure = Except.ok true := H
    obtain ⟨_, H1⟩ := consStr_ok_true H'
    obtain ⟨_, H2⟩ := consStr_ok_true H1
    obtain ⟨⟨vf, hlook, hsub⟩, _⟩ := consNested_ok_true H2
    exact ⟨PyVal.dict vf, hlook, hsub⟩
  refine ⟨rfl, rfl, rfl, rfl, h5, ?_⟩
  intro fields a hlook hne H
  obtain ⟨a2, hlook2, hsub2⟩ := h5 fields H
  have : some a = some a2 := hlook.symm.trans hlook2
  cases this
  exact hne hsub2

/-- C4 witness: a record whose `address` is not even a mapping is not
accepted even though every top-level key is present. -/
theorem C4_schema_validator_witness :
    StructureValidator.validate
      (PyVal.dict [("id", PyVal.str "1"), ("name", PyVal.str "A"),
        ("address", PyVal.str "oops"), ("price", PyVal.str "1"),
        ("currency", PyVal.str "T")]) expected_structure ≠ Except.ok true :=
  C4_schema_validator.2.2.2.2.2
    [("id", PyVal.str "1"), ("name", PyVal.str "A"), ("address", PyVal.str "oops"),
      ("price", PyVal.str "1"), ("currency", PyVal.str "T")]
    (PyVal.str "oops") rfl (fun h => Except.noConfusion h)

/-- C6: the transformer chain is Name, Price, Currency in that order, and
`OrderProcessor.process` short-circuits on the first raised
`OrderProcessingError`: whichever transformer fails first, the response is
the 400 failure body carrying exactly that error, and no later transformer
can contribute — in particular a record rejected by `PriceTransformer`
produces the price error verbatim, with no currency or price rewriting in
the response. -/
theorem C6_chain_short_circuit :
    theTransformers =
      [NameTransformer.transform, PriceTransformer.transform, CurrencyTransformer.transform]
  ∧ (∀ d e, StructureValidator.validate d expected_structure = Except.ok true →
      NameTransformer.transform d = Except.error (PyErr.processing e) →
      OrderProcessor.process d = Except.ok (failBody e, 400))
  ∧ (∀ d d1 e, StructureValidator.validate d expected_structure = Except.ok true →
      NameTransformer.transform d = Except.ok d1 →
      PriceTransformer.transform d1 = Except.error (PyErr.processing e) →
      OrderProcessor.process d = Except.ok (failBody e, 400))
  ∧ (∀ d d1 d2 e, StructureValidator.validate d expected_structure = Except.ok true →
      NameTransformer.transform d = Except.ok d1 →
      PriceTransformer.transform d1 = Except.ok d2 →
      CurrencyTransformer.transform d2 = Except.error (PyErr.processing e) →
      OrderProcessor.process d = Except.ok (failBody e, 400)) := by
  refine ⟨rfl, ?_, ?_, ?_⟩
  · intro d e hv hn
    unfold OrderProcessor.process
    simp only [hv, theTransformers, applyChain, hn]
    rw [if_pos trivial]
  · intro d d1 e hv hn hp
    unfold OrderProcessor.process
    simp only [hv, theTransformers, applyChain, hn, hp]
    rw [if_pos trivial]
  · intro d d1 d2 e hv hn hp hc
    unfold OrderProcessor.process
    simp only [hv, theTransformers, applyChain, hn, hp, hc]
    rw [if_pos trivial]

/-- C6 witness: on a structurally valid record with price "2001", the
pipeline returns exactly the price error and a 400. -/
theorem C6_chain_short_circuit_witness :
    OrderProcessor.process
      (PyVal.dict [("id", PyVal.str "123"), ("name", PyVal.str "Test Order"),
        ("address", PyVal.dict [("city", PyVal.str "Taipei"), ("district", PyVal.str "Xinyi"),
          ("street", PyVal.str "Main St")]),
        ("price", PyVal.str "2001"), ("currency", PyVal.str "TWD")]) =
      Except.ok (failBody ⟨"Price is over 2000.", "Bad Request"⟩, 400) :=
  C6_chain_short_circuit.2.2.1
    (PyVal.dict [("id", PyVal.str "123"), ("name", PyVal.str "Test Order"),
      ("address", PyVal.dict [("city", PyVal.str "Taipei"), ("district", PyVal.str "Xinyi"),
        ("street", PyVal.str "Main St")]),
      ("price", PyVal.str "2001"), ("currency", PyVal.str "TWD")])
    (PyVal.dict [("id", PyVal.str "123"), ("name", PyVal.str "Test Order"),
      ("address", PyVal.dict [("city", PyVal.str "Taipei"), ("district", PyVal.str "Xinyi"),
        ("street", PyVal.str "Main St")]),
      ("price", PyVal.str "2001"), ("currency", PyVal.str "TWD")])
    ⟨"Price is over 2000.", "Bad Request"⟩ rfl rfl rfl

/-- C7: whenever `OrderProcessor.process` returns a response, it is exactly
one of two shapes: the success body
`{"Success": "Order is processed.", "Order_data": d}` with status 200 for
the fully transformed record, or the failure body
`{"error": category, "message": text}` with status 400 where the category
and message come verbatim from the first error raised by the validator or
by the transformer chain. -/
theorem C7_response_shapes :
    ∀ d r, OrderProcessor.process d = Except.ok r →
      (∃ d2, StructureValidator.validate d expected_structure = Except.ok true ∧
          applyChain theTransformers d = Except.ok d2 ∧ r = (successBody d2, 200))
    ∨ (∃ e, (StructureValidator.validate d expected_structure = Except.error e ∨
          applyChain theTransformers d = Except.error (PyErr.processing e)) ∧
        r = (failBody e, 400)) := by
  intro d r H
  unfold OrderProcessor.process at H
  cases hv : StructureValidator.validate d expected_structure with
  | error e =>
    simp only [hv] at H
    simp only [Except.ok.injEq] at H
    exact Or.inr ⟨e, Or.inl rfl, H.symm⟩
  | ok b =>
    cases b with
    | false => exact absurd hv (validate_ne_ok_false expected_structure d)
    | true =>
      simp only [hv] at H
      rw [if_pos trivial] at H
      cases hc : applyChain theTransformers d with
      | ok d2 =>
        simp only [hc] at H
        simp only [Except.ok.injEq] at H
        exact Or.inl ⟨d2, rfl, rfl, H.symm⟩
      | error pe =>
        cases pe with
        | processing e =>
          simp only [hc] at H
          simp only [Except.ok.injEq] at H
          exact Or.inr ⟨e, Or.inr rfl, H.symm⟩
        | exn n =>
          simp only [hc] at H
          exact absurd H (by simp)

/-- C7 witness: the shape disjunction instantiated at a non-mapping
input, which takes the failure branch. -/
theorem C7_response_shapes_witness :
    (∃ d2, StructureValidator.validate (PyVal.int 0) expected_structure = Except.ok true ∧
        applyChain theTransformers (PyVal.int 0) = Except.ok d2 ∧
        ((failBody ⟨"Invalid order data structure", "Bad Request"⟩, (400 : Nat)) =
          (successBody d2, 200)))
  ∨ (∃ e, (StructureValidator.validate (PyVal.int 0) expected_structure = Except.error e ∨
        applyChain theTransformers (PyVal.int 0) = Except.error (PyErr.processing e)) ∧
      ((failBody ⟨"Invalid order data structure", "Bad Request"⟩, (400 : Nat)) =
        (failBody e, 400))) :=
  C7_response_shapes (PyVal.int 0)
    (failBody ⟨"Invalid order data structure", "Bad Request"⟩, 400) rfl

/-- C9: `StructureValidator.validate` never returns `False` — on every
input it either raises an `OrderProcessingError` or returns `True` (the
recursion propagating `False` is unreachable) — and consequently the
defensive "Invalid JSON received" branch of `OrderProcessor.process` is
unreachable: no response ever carries that body. -/
theorem C9_validator_never_false :
    (∀ es d, StructureValidator.validate d es ≠ Except.ok false)
  ∧ (∀ d r, OrderProcessor.process d = Except.ok r →
      r ≠ (failBody ⟨"Invalid JSON received", "Bad Request"⟩, 400)) := by
  refine ⟨fun es d => validate_ne_ok_false es d, ?_⟩
  intro d r H hr
  subst hr
  unfold OrderProcessor.process at H
  cases hv : StructureValidator.validate d expected_structure with
  | error e =>
    simp only [hv] at H
    simp only [Except.ok.injEq, Prod.mk.injEq] at H
    have hmsg := validate_concrete_err_msg d e hv
    have H1 : failBody e = failBody ⟨"Invalid JSON received", "Bad Request"⟩ := H.1
    simp only [failBody, PyVal.dict.injEq, List.cons.injEq, Prod.mk.injEq,
      PyVal.str.injEq] at H1
    exact hmsg H1.2.1.2
  | ok b =>
    cases b with
    | false => exact absurd hv (validate_ne_ok_false expected_structure d)
    | true =>
      simp only [hv] at H
      rw [if_pos trivial] at H
      cases hc : applyChain theTransformers d with
      | ok d2 =>
        simp only [hc] at H
        simp only [Except.ok.injEq, Prod.mk.injEq] at H
        exact absurd H.2 (by decide)
      | error pe =>
        cases pe with
        | processing e =>
          simp only [hc] at H
          simp only [Except.ok.injEq, Prod.mk.injEq] at H
          have hmsg := chain_err_msg hc
          have H1 : failBody e = failBody ⟨"Invalid JSON received", "Bad Request"⟩ := H.1
          simp only [failBody, PyVal.dict.injEq, List.cons.injEq, Prod.mk.injEq,
            PyVal.str.injEq] at H1
          exact hmsg H1.2.1.2
        | exn n =>
          simp only [hc] at H
          exact absurd H (by simp)

/-- C9 witness: the non-mapping input produces the validator's own error
body, which is not the defensive one. -/
theorem C9_validator_never_false_witness :
    (failBody ⟨"Invalid order data structure", "Bad Request"⟩, (400 : Nat)) ≠
      (failBody ⟨"Invalid JSON received", "Bad Request"⟩, 400) :=
  C9_validator_never_false.2 (PyVal.int 0)
    (failBody ⟨"Invalid order data structure", "Bad Request"⟩, 400) rfl

/-- C10: a record that passes schema validation and the name checks but
whose price text is not an integer numeral (such as "1000.50" or "abc")
makes `int(...)` raise a `ValueError`, which is not an
`OrderProcessingError`: it escapes `OrderProcessor.process`'s handler, so
the pipeline returns neither the success body nor the uniform failure
body. -/
theorem C10_nonnumeric_price_escapes :
    ∀ d s, StructureValidator.validate d expected_structure = Except.ok true →
      NameTransformer.transform d = Except.ok d →
      dictGet d "price" = Except.ok (PyVal.str s) →
      pyInt s = none →
      OrderProcessor.process d = Except.error "ValueError" := by
  intro d s hv hn hp hpi
  have hpt : PriceTransformer.transform d = Except.error (PyErr.exn "ValueError") := by
    unfold PriceTransformer.transform
    rw [hp]
    simp only [Except.ok.injEq]
    simp only [pyIntOf, hpi]
  unfold OrderProcessor.process
  simp only [hv, theTransformers, applyChain, hn, hpt]
  rw [if_pos trivial]

/-- C10 witness: the otherwise valid record with price "1000.50" escapes
with a `ValueError` instead of producing a response. -/
theorem C10_nonnumeric_price_escapes_witness :
    OrderProcessor.process
      (PyVal.dict [("id", PyVal.str "123"), ("name", PyVal.str "Test Order"),
        ("address", PyVal.dict [("city", PyVal.str "Taipei"), ("district", PyVal.str "Xinyi"),
          ("street", PyVal.str "Main St")]),
        ("price", PyVal.str "1000.50"), ("currency", PyVal.str "TWD")]) =
      Except.error "ValueError" :=
  C10_nonnumeric_price_escapes
    (PyVal.dict [("id", PyVal.str "123"), ("name", PyVal.str "Test Order"),
      ("address", PyVal.dict [("city", PyVal.str "Taipei"), ("district", PyVal.str "Xinyi"),
        ("street", PyVal.str "Main St")]),
      ("price", PyVal.str "1000.50"), ("currency", PyVal.str "TWD")])
    "1000.50" rfl rfl rfl rfl
